import Mathlib

/-!
Verification development for the napari-svg plugin.

The Python sources are shallowly embedded as follows.

* Machine floats are modelled by real numbers `ℝ`; `numpy.nan` entries of the
  2x2 extrema arrays are modelled by `Option ℝ` with `none` standing for NaN
  (the converters only produce NaN through the all-NaN empty-layer sentinel,
  and the writer's `nanmin`/`nanmax` reduction is total on this model).
* A numpy array enters a definition only through the data the claims depend
  on: coordinate arrays become lists of pairs, an image array is represented
  by its shape (a `List ℕ`), because only the shape reaches the
  dimensionality check, the extrema and the emitted width/height.
* Python exceptions are modelled with `Except PyErr`; each `PyErr`
  constructor names the concrete Python error site it stands for.
* XML elements keep their attribute payloads as structured values instead of
  formatted strings; in particular the SVG transform attribute produced by
  `layer_transforms_to_xml_string` is kept as the list of its five operators
  (`layer_transforms_to_xml_ops`), since the claims quantify over the
  numeric content of the operators, not over decimal formatting.
* `np.argsort(z_index)` (no `kind` argument, i.e. numpy's default quicksort,
  which numpy documents as not stable) is modelled by an explicit permutation
  parameter constrained by `IsArgsortOf`: any permutation of the indices
  along which the keys are ascending is a possible return value.
-/

namespace NapariSvg

/-- Python errors raised by the embedded code, named by their raise site. -/
inductive PyErr where
  /-- The explicit `raise ValueError(... must be 2 dimensional ...)` checks. -/
  | dimensionality : PyErr
  /-- `np.array([[0, 0], list(image.shape)])` with a shape of length other
  than 2 is ragged and numpy refuses to build the array. -/
  | raggedArray : PyErr
  /-- `np.min`/`np.max` over an axis of size zero raises
  `zero-size array to reduction operation`. -/
  | zeroSizeReduction : PyErr
  /-- `coords @ matrix.T` with a column count other than 2 raises a matmul
  shape mismatch `ValueError`. -/
  | matmulMismatch : PyErr
  /-- Python list indexing out of range. -/
  | indexError : PyErr
  /-- `ellipse_to_xml` reads `cen` in its `angle == 0` branch although `cen`
  is only assigned in the rotated branch: `UnboundLocalError`. -/
  | unboundLocalCen : PyErr
  /-- Input outside the host data contract that the embedding does not
  model (e.g. a list of arrays passed with `multiscale` unset). -/
  | hostContract : PyErr
  deriving DecidableEq, Repr

/-! ## Transform metadata (`layer_to_xml.py`, lines 47-102)

The five transform-related metadata keys.  All are optional; `none` models a
missing key.  `shear` stores the first entry of the napari shear list, which
is the only entry either function reads (`meta.get('shear', [0])[0]`). -/

/-- A 2x2 matrix as nested pairs, rows first. -/
abbrev M2 : Type := (ℝ × ℝ) × (ℝ × ℝ)

/-- A 3x3 matrix as nested triples, rows first. -/
abbrev M3 : Type := (ℝ × ℝ × ℝ) × (ℝ × ℝ × ℝ) × (ℝ × ℝ × ℝ)

/-- The transform-related entries of a layer metadata dict. -/
structure TransformMeta where
  scale : Option (ℝ × ℝ) := none
  translate : Option (ℝ × ℝ) := none
  shear : Option ℝ := none
  rotate : Option M2 := none
  affine : Option M3 := none

/-- The 2x2 identity, default for the `rotate` key. -/
def id2 : M2 := ((1, 0), (0, 1))

/-- The 3x3 identity (`np.eye(3)`), default for the `affine` key. -/
def id3 : M3 := ((1, 0, 0), (0, 1, 0), (0, 0, 1))

/-- Swap of a coordinate pair: the `[::-1]` reversal from row/column to
x/y order. -/
def swap2 (p : ℝ × ℝ) : ℝ × ℝ := (p.2, p.1)

/-- Model of `np.arctan2 y x`: the argument of the complex number `x + i y`. -/
noncomputable def atan2 (y x : ℝ) : ℝ := Complex.arg ⟨x, y⟩

/-- Model of `np.degrees`. -/
noncomputable def degrees (x : ℝ) : ℝ := x * 180 / Real.pi

/-- Conversion from degrees back to radians, used when interpreting the
angle arguments of SVG `rotate`/`skewY` operators. -/
noncomputable def radians (x : ℝ) : ℝ := x * Real.pi / 180

/-- One operator of an SVG transform attribute string. -/
inductive TransformOp where
  | scaleOp (sx sy : ℝ)
  | skewYOp (deg : ℝ)
  | rotateOp (deg : ℝ)
  | translateOp (tx ty : ℝ)
  | matrixOp (a b c d e f : ℝ)

/-- Model of `layer_transforms_to_xml_string` (layer_to_xml.py lines 47-89):
the sequence of operators of the returned transform string, in string order.
The five operators are computed exactly as in the source (scale and
translate reversed to x/y order, the rotation angle recovered as
`degrees(arctan2(rot[0][1], rot[1][1]))`, the skew as
`degrees(arctan2(shear[0], 1))`, and the first two rows of the affine
raveled into `d b f c a e`), and the list is reversed on return because SVG
interprets transform lists right-to-left. -/
noncomputable def layer_transforms_to_xml_ops (m : TransformMeta) : List TransformOp :=
  let scale := swap2 (m.scale.getD (1, 1))
  let translate := swap2 (m.translate.getD (0, 0))
  let rotmat := m.rotate.getD id2
  let rotate := degrees (atan2 rotmat.1.2 rotmat.2.2)
  let skewy := degrees (atan2 (m.shear.getD 0) 1)
  let aff := m.affine.getD id3
  let d := aff.1.1
  let b := aff.1.2.1
  let f := aff.1.2.2
  let c := aff.2.1.1
  let a := aff.2.1.2.1
  let e := aff.2.1.2.2
  [ TransformOp.scaleOp scale.1 scale.2,
    TransformOp.skewYOp skewy,
    TransformOp.rotateOp rotate,
    TransformOp.translateOp translate.1 translate.2,
    TransformOp.matrixOp a b c d e f ].reverse

/-- Semantics of one SVG transform operator on an (x, y) point, following
the SVG/CSS transform specification. -/
noncomputable def applyTransformOp : TransformOp → ℝ × ℝ → ℝ × ℝ
  | TransformOp.scaleOp sx sy, p => (sx * p.1, sy * p.2)
  | TransformOp.skewYOp deg, p => (p.1, Real.tan (radians deg) * p.1 + p.2)
  | TransformOp.rotateOp deg, p =>
      (Real.cos (radians deg) * p.1 - Real.sin (radians deg) * p.2,
       Real.sin (radians deg) * p.1 + Real.cos (radians deg) * p.2)
  | TransformOp.translateOp tx ty, p => (p.1 + tx, p.2 + ty)
  | TransformOp.matrixOp a b c d e f, p =>
      (a * p.1 + c * p.2 + e, b * p.1 + d * p.2 + f)

/-- Application of a transform operator list to a point, right-to-left
(the rightmost operator is applied to the point first), as the SVG
rendering model prescribes. -/
noncomputable def svgApply : List TransformOp → ℝ × ℝ → ℝ × ℝ
  | [], p => p
  | op :: rest, p => applyTransformOp op (svgApply rest p)

/-- Product of two 2x2 matrices. -/
def mul2 (m n : M2) : M2 :=
  ((m.1.1 * n.1.1 + m.1.2 * n.2.1, m.1.1 * n.1.2 + m.1.2 * n.2.2),
   (m.2.1 * n.1.1 + m.2.2 * n.2.1, m.2.1 * n.1.2 + m.2.2 * n.2.2))

/-- Product of a 2x2 matrix with a column vector. -/
def mulVec2 (m : M2) (v : ℝ × ℝ) : ℝ × ℝ :=
  (m.1.1 * v.1 + m.1.2 * v.2, m.2.1 * v.1 + m.2.2 * v.2)

/-- Model of `make_linear_matrix_and_offset` (layer_to_xml.py lines 91-102):
`matrix = linear @ (rotate @ shear @ scale)` and
`offset = linear @ translate + affine_tr`, in row/column coordinates. -/
def make_linear_matrix_and_offset (m : TransformMeta) : M2 × (ℝ × ℝ) :=
  let rotate := m.rotate.getD id2
  let shear : M2 := ((1, m.shear.getD 0), (0, 1))
  let scale0 := m.scale.getD (1, 1)
  let scale : M2 := ((scale0.1, 0), (0, scale0.2))
  let translate := m.translate.getD (0, 0)
  let aff := m.affine.getD id3
  let linear : M2 := ((aff.1.1, aff.1.2.1), (aff.2.1.1, aff.2.1.2.1))
  let affineTr : ℝ × ℝ := (aff.1.2.2, aff.2.1.2.2)
  let matrix := mul2 linear (mul2 rotate (mul2 shear scale))
  let offsetV := mulVec2 linear translate
  (matrix, (offsetV.1 + affineTr.1, offsetV.2 + affineTr.2))

/-- Affine action `point @ matrix.T + offset` of the pair returned by
`make_linear_matrix_and_offset` on a single (row, column) point. -/
def affineApply (mo : M2 × (ℝ × ℝ)) (p : ℝ × ℝ) : ℝ × ℝ :=
  (mo.1.1.1 * p.1 + mo.1.1.2 * p.2 + mo.2.1,
   mo.1.2.1 * p.1 + mo.1.2.2 * p.2 + mo.2.2)

/-! ## Extrema (2x2 min/max arrays, NaN-aware) -/

/-- A 2x2 extrema array `[[min0, min1], [max0, max1]]`; `none` models NaN. -/
structure Extrema where
  min0 : Option ℝ
  min1 : Option ℝ
  max0 : Option ℝ
  max1 : Option ℝ

/-- An extrema with all four entries finite. -/
def Extrema.finite (a b c d : ℝ) : Extrema := ⟨some a, some b, some c, some d⟩

/-- The all-NaN empty-layer sentinel `np.full((2, 2), np.nan)`. -/
def nanExtrema : Extrema := ⟨none, none, none, none⟩

/-- An extrema is the NaN sentinel when all four entries are NaN. -/
def Extrema.allNaN (e : Extrema) : Prop :=
  e.min0 = none ∧ e.min1 = none ∧ e.max0 = none ∧ e.max1 = none

/-- An extrema is finite when all four entries are numbers. -/
def Extrema.allFinite (e : Extrema) : Prop :=
  e.min0.isSome ∧ e.min1.isSome ∧ e.max0.isSome ∧ e.max1.isSome

/-- Model of `np.nanmin` on two scalars: NaN operands are ignored and the
result is NaN only when both operands are NaN. -/
def fmin : Option ℝ → Option ℝ → Option ℝ
  | none, none => none
  | none, some b => some b
  | some a, none => some a
  | some a, some b => some (min a b)

/-- Model of `np.nanmax` on two scalars. -/
def fmax : Option ℝ → Option ℝ → Option ℝ
  | none, none => none
  | none, some b => some b
  | some a, none => some a
  | some a, some b => some (max a b)

/-- The pairwise extrema merge of `writer` (hook_implementations.py lines
100-103): elementwise `nanmin` of the two minima rows and `nanmax` of the
two maxima rows. -/
def mergeExtrema (x y : Extrema) : Extrema :=
  ⟨fmin x.min0 y.min0, fmin x.min1 y.min1, fmax x.max0 y.max0, fmax x.max1 y.max1⟩

/-- The accumulation step of the `writer` loop: `full_extrema` starts as
`None`, takes the first layer's extrema unchanged and is merged with each
later layer's extrema. -/
def writerStep (acc : Option Extrema) (e : Extrema) : Option Extrema :=
  match acc with
  | none => some e
  | some a => some (mergeExtrema a e)

/-- The extrema aggregation of `writer` over a list of per-layer extrema
(hook_implementations.py lines 82-103). -/
def writerExtrema (l : List Extrema) : Option Extrema :=
  l.foldl writerStep none

/-! ## Document assembly (`xml_to_svg.py`) -/

/-- Shape style properties carried into an emitted shape element: the
`stroke-width`, `opacity`, `fill`, `stroke` and optional
`rotate(angle cx cy)` transform attributes, with numeric payloads kept as
numbers. -/
structure ShapeProps where
  strokeWidth : ℝ := 1
  opacity : ℝ := 1
  fill : Option (ℤ × ℤ × ℤ) := none
  fillNone : Bool := false
  stroke : Option (ℤ × ℤ × ℤ) := none
  transform : Option (ℝ × ℝ × ℝ) := none

/-- An emitted XML element with structured attribute payloads. -/
inductive SvgElem where
  | ellipse (cx cy rx ry : ℝ) (props : ShapeProps)
  | line (x1 y1 x2 y2 : ℝ) (props : ShapeProps)
  | polyline (points : List (ℝ × ℝ)) (props : ShapeProps)
  | polygon (points : List (ℝ × ℝ)) (props : ShapeProps)
  | rect (x y width height : ℝ) (props : ShapeProps)
  | circle (cx cy r : ℝ) (props : ShapeProps)
  | image (width height : ℕ) (opacity : ℝ) (transform : List TransformOp)
  | g (transform : List TransformOp) (children : List SvgElem)

/-- Children of a group element (empty for non-group elements). -/
def SvgElem.childrenOf : SvgElem → List SvgElem
  | SvgElem.g _ children => children
  | _ => []

/-- The assembled SVG document: root attributes `height`/`width`, the
`translate(-corner_x, -corner_y)` group transform, and the layer fragments. -/
structure SvgDoc where
  height : ℝ
  width : ℝ
  translateX : ℝ
  translateY : ℝ
  children : List SvgElem

/-- Model of `np.nan_to_num` on one scalar: NaN becomes 0. -/
def nanToNum (x : Option ℝ) : ℝ := x.getD 0

/-- Model of `xml_to_svg` (xml_to_svg.py lines 6-58): replace NaN extrema
entries by 0, set `shape = extrema[1] - extrema[0]` with zero components
replaced by 1, emit the root with `height = shape[0]`, `width = shape[1]`
and a group translated by `(-corner[1], -corner[0])`. -/
noncomputable def xml_to_svg (xmlList : List SvgElem) (extrema : Extrema) : SvgDoc :=
  let corner0 := nanToNum extrema.min0
  let corner1 := nanToNum extrema.min1
  let shape0 := nanToNum extrema.max0 - corner0
  let shape1 := nanToNum extrema.max1 - corner1
  let shape0 := if shape0 = 0 then 1 else shape0
  let shape1 := if shape1 = 0 then 1 else shape1
  ⟨shape0, shape1, -corner1, -corner0, xmlList⟩

/-! ## Coordinate extrema (`layer_to_xml.py` lines 105-117) -/

/-- Model of `extrema_coords`: transform the coordinates by
`coords @ matrix.T + offset` and take the columnwise minimum and maximum.
`np.min`/`np.max` over a zero-size axis raise, hence the error on an empty
coordinate list. -/
noncomputable def extrema_coords (coords : List (ℝ × ℝ)) (t : TransformMeta) :
    Except PyErr Extrema :=
  let mo := make_linear_matrix_and_offset t
  match coords.map (affineApply mo) with
  | [] => Except.error PyErr.zeroSizeReduction
  | p :: rest =>
      Except.ok (Extrema.finite
        (rest.foldl (fun m q => min m q.1) p.1)
        (rest.foldl (fun m q => min m q.2) p.2)
        (rest.foldl (fun m q => max m q.1) p.1)
        (rest.foldl (fun m q => max m q.2) p.2))

/-- Model of `extrema_image`: the corner coordinates are
`np.array([[0, 0], list(image.shape)])`, which is a ragged (rejected) array
construction unless the shape has exactly two entries. -/
noncomputable def extrema_image (shape : List ℕ) (t : TransformMeta) : Except PyErr Extrema :=
  if shape.length = 2 then
    extrema_coords [(0, 0), ((shape.getD 0 0 : ℕ), (shape.getD 1 0 : ℕ))] t
  else Except.error PyErr.raggedArray

/-! ## Shape primitive encoders (`_shape_to_xml.py`)

Vertex rows are typed as pairs, so the two-column constraint that
`path_to_xml`/`polygon_to_xml` check dynamically holds by construction;
the vertex-count checks of the other encoders are modelled explicitly. -/

/-- The rotation angle both `ellipse_to_xml` and `rectangle_to_xml` recover
from the first edge of the (already x/y-flipped) vertex list:
`-arctan2(offset[0], -offset[1])` for `offset = data[1] - data[0]`. -/
noncomputable def recoveredAngle (d0 d1 : ℝ × ℝ) : ℝ :=
  -atan2 (d1.1 - d0.1) (-(d1.2 - d0.2))

/-- Centroid (`data.mean(axis=0)`) of four points. -/
noncomputable def centroid4 (a b c d : ℝ × ℝ) : ℝ × ℝ :=
  ((a.1 + b.1 + c.1 + d.1) / 4, (a.2 + b.2 + c.2 + d.2) / 4)

/-- The de-rotation both encoders apply: for
`c, s = cos(angle), sin(-angle)` and `rotation = [[c, s], [-s, c]]`, each
vertex row `v` becomes `rotation @ v`. -/
noncomputable def deRotate (angle : ℝ) (v : ℝ × ℝ) : ℝ × ℝ :=
  (Real.cos angle * v.1 + Real.sin (-angle) * v.2,
   -Real.sin (-angle) * v.1 + Real.cos angle * v.2)

/-- Minimum of four reals, as numpy's reduction over the four vertex rows. -/
noncomputable def min4 (a b c d : ℝ) : ℝ := min (min (min a b) c) d

/-- The de-rotation about the centroid both rotated-shape encoders apply:
shift to the origin, de-rotate, shift back. -/
noncomputable def rotAbout (angle : ℝ) (cen v : ℝ × ℝ) : ℝ × ℝ :=
  let w := deRotate angle (v.1 - cen.1, v.2 - cen.2)
  (w.1 + cen.1, w.2 + cen.2)

/-- Semantics of the optional `rotate(angleDeg cx cy)` transform attribute
attached to an emitted shape element: rotation by the angle (in degrees)
about the centre, identity when the attribute is absent. -/
noncomputable def applyRotateAttr : Option (ℝ × ℝ × ℝ) → ℝ × ℝ → ℝ × ℝ
  | none, p => p
  | some (deg, cx, cy), p =>
      (Real.cos (radians deg) * (p.1 - cx) - Real.sin (radians deg) * (p.2 - cy) + cx,
       Real.sin (radians deg) * (p.1 - cx) + Real.cos (radians deg) * (p.2 - cy) + cy)

/-- Model of `ellipse_to_xml` (_shape_to_xml.py lines 5-55).  On a rotated
ellipse the vertices are de-rotated about the centroid and a
`rotate(degrees(-angle) cen[0] cen[1])` transform is attached.  In the
`angle == 0` branch the source keeps the vertices (`coords = data`) but
then reads `cen`, which that branch never assigns, so Python raises
`UnboundLocalError` there. -/
noncomputable def ellipse_to_xml (data : List (ℝ × ℝ)) (props : ShapeProps) :
    Except PyErr SvgElem :=
  if data.length = 4 then
    let d := data.map swap2
    let d0 := d.getD 0 (0, 0)
    let d1 := d.getD 1 (0, 0)
    let d2 := d.getD 2 (0, 0)
    let d3 := d.getD 3 (0, 0)
    let angle := recoveredAngle d0 d1
    if angle = 0 then
      Except.error PyErr.unboundLocalCen
    else
      let cen := centroid4 d0 d1 d2 d3
      let c0 := rotAbout angle cen d0
      let c2 := rotAbout angle cen d2
      let size := (|c2.1 - c0.1|, |c2.2 - c0.2|)
      Except.ok (SvgElem.ellipse cen.1 cen.2 (size.1 / 2) (size.2 / 2)
        { props with transform := some (degrees (-angle), cen.1, cen.2) })
  else Except.error PyErr.dimensionality

/-- Model of `rectangle_to_xml` (_shape_to_xml.py lines 142-194): same
rotation recovery as the ellipse, then the emitted `x`/`y` are the
columnwise minima of the (possibly de-rotated) vertices and
`width`/`height` are `abs(coords[2] - coords[0])`. -/
noncomputable def rectangle_to_xml (data : List (ℝ × ℝ)) (props : ShapeProps) :
    Except PyErr SvgElem :=
  if data.length = 4 then
    let d := data.map swap2
    let d0 := d.getD 0 (0, 0)
    let d1 := d.getD 1 (0, 0)
    let d2 := d.getD 2 (0, 0)
    let d3 := d.getD 3 (0, 0)
    let angle := recoveredAngle d0 d1
    if angle = 0 then
      let x := min4 d0.1 d1.1 d2.1 d3.1
      let y := min4 d0.2 d1.2 d2.2 d3.2
      let size := (|d2.1 - d0.1|, |d2.2 - d0.2|)
      Except.ok (SvgElem.rect x y size.1 size.2 props)
    else
      let cen := centroid4 d0 d1 d2 d3
      let c0 := rotAbout angle cen d0
      let c1 := rotAbout angle cen d1
      let c2 := rotAbout angle cen d2
      let c3 := rotAbout angle cen d3
      let x := min4 c0.1 c1.1 c2.1 c3.1
      let y := min4 c0.2 c1.2 c2.2 c3.2
      let size := (|c2.1 - c0.1|, |c2.2 - c0.2|)
      Except.ok (SvgElem.rect x y size.1 size.2
        { props with transform := some (degrees (-angle), cen.1, cen.2) })
  else Except.error PyErr.dimensionality

/-- Model of `line_to_xml` (_shape_to_xml.py lines 58-84): two vertices,
emitted with the row/column to y/x axis swap. -/
def line_to_xml (data : List (ℝ × ℝ)) (props : ShapeProps) :
    Except PyErr SvgElem :=
  if data.length = 2 then
    let p0 := data.getD 0 (0, 0)
    let p1 := data.getD 1 (0, 0)
    Except.ok (SvgElem.line p0.2 p0.1 p1.2 p1.1 props)
  else Except.error PyErr.dimensionality

/-- Model of `path_to_xml` (_shape_to_xml.py lines 87-112): an open
polyline of axis-swapped vertices with `fill` forced to `none`. -/
def path_to_xml (data : List (ℝ × ℝ)) (props : ShapeProps) :
    Except PyErr SvgElem :=
  Except.ok (SvgElem.polyline (data.map swap2)
    { props with fill := none, fillNone := true })

/-- Model of `polygon_to_xml` (_shape_to_xml.py lines 115-139): a closed
polygon of axis-swapped vertices, fill taken from the incoming properties. -/
def polygon_to_xml (data : List (ℝ × ℝ)) (props : ShapeProps) :
    Except PyErr SvgElem :=
  Except.ok (SvgElem.polygon (data.map swap2) props)

/-- The shape types of the `shape_type_to_xml` dispatch table. -/
inductive ShapeKind where
  | ellipse | line | path | polygon | rectangle
  deriving DecidableEq

/-- The `shape_type_to_xml` dispatch table (layer_to_xml.py lines 38-44). -/
noncomputable def shape_type_to_xml (k : ShapeKind) :
    List (ℝ × ℝ) → ShapeProps → Except PyErr SvgElem :=
  match k with
  | ShapeKind.ellipse => ellipse_to_xml
  | ShapeKind.line => line_to_xml
  | ShapeKind.path => path_to_xml
  | ShapeKind.polygon => polygon_to_xml
  | ShapeKind.rectangle => rectangle_to_xml

/-! ## Layer converters (`layer_to_xml.py`) -/

/-- An RGBA colour with float channels in [0, 1]. -/
abbrev Col4 : Type := ℝ × ℝ × ℝ × ℝ

/-- Model of `astype(int)` on one float: truncation toward zero. -/
noncomputable def pyTrunc (x : ℝ) : ℤ := if 0 ≤ x then ⌊x⌋ else ⌈x⌉

/-- The `f'rgb{tuple(map(int, (255 * color).astype(int)[:3]))}'` channel
conversion: scale to 0-255 and truncate, dropping alpha. -/
noncomputable def col255 (c : Col4) : ℤ × ℤ × ℤ :=
  (pyTrunc (255 * c.1), pyTrunc (255 * c.2.1), pyTrunc (255 * c.2.2.1))

/-- Metadata keys read by `shapes_to_xml`. -/
structure ShapesMeta where
  t : TransformMeta := {}
  faceColor : Option (List Col4) := none
  edgeColor : Option (List Col4) := none
  zIndex : Option (List ℝ) := none
  edgeWidth : Option (List ℝ) := none
  opacity : Option ℝ := none
  shapeType : Option (List ShapeKind) := none

/-- Model of `extrema_shapes`: extrema of the concatenation of all shape
vertex arrays. -/
noncomputable def extrema_shapes (shapesData : List (List (ℝ × ℝ))) (t : TransformMeta) :
    Except PyErr Extrema :=
  extrema_coords shapesData.flatten t

/-- The per-shape element construction loop of `shapes_to_xml` (lines
407-419): `zip` over the shape list and the per-shape style lists
(truncating at the shortest list, as Python `zip` does), dispatching on the
shape type. -/
noncomputable def rawShapeElems (data : List (List (ℝ × ℝ)))
    (shapeType : List ShapeKind) (faceColor edgeColor : List Col4)
    (edgeWidth : List ℝ) (opacity : ℝ) : Except PyErr (List SvgElem) :=
  match data, shapeType, faceColor, edgeColor, edgeWidth with
  | s :: ds, st :: sts, fc :: fcs, ec :: ecs, ew :: ews =>
      let props : ShapeProps :=
        { strokeWidth := ew, opacity := opacity, fill := some (col255 fc),
          fillNone := false, stroke := some (col255 ec), transform := none }
      (match shape_type_to_xml st s props,
             rawShapeElems ds sts fcs ecs ews opacity with
       | Except.ok e, Except.ok rest => Except.ok (e :: rest)
       | Except.error err, _ => Except.error err
       | Except.ok _, Except.error err => Except.error err)
  | _, _, _, _, _ => Except.ok []

/-- The raw (input-ordered) element list of `shapes_to_xml` for given data
and metadata, defaults filled as in lines 363-393. -/
noncomputable def shapes_raw_elems (data : List (List (ℝ × ℝ)))
    (m : ShapesMeta) : Except PyErr (List SvgElem) :=
  let n := data.length
  rawShapeElems data
    (m.shapeType.getD (List.replicate n ShapeKind.rectangle))
    (m.faceColor.getD (List.replicate n (1, 1, 1, 1)))
    (m.edgeColor.getD (List.replicate n (0, 0, 0, 1)))
    (m.edgeWidth.getD (List.replicate n 1))
    (m.opacity.getD 1)

/-- The per-shape z-index list of `shapes_to_xml`: the `z_index` metadata,
defaulting to `np.zeros(len(data))`. -/
def shapes_z_index (data : List (List (ℝ × ℝ))) (m : ShapesMeta) : List ℝ :=
  m.zIndex.getD (List.replicate data.length 0)

/-- A possible return value of `np.argsort keys` (called without a `kind`
argument, i.e. numpy's default quicksort): a permutation of the index range
along which the keys are ascending.  numpy does not document the default
sort as stable, so the permutation is underdetermined on equal keys and the
embedding passes it as an explicit parameter constrained by this
predicate. -/
def IsArgsortOf (keys : List ℝ) (perm : List ℕ) : Prop :=
  perm.Perm (List.range keys.length) ∧
  (perm.map (fun i => keys.getD i 0)).Sorted (· ≤ ·)

/-- The re-ordering loop `for i in np.argsort(z_index):
layer_xml.append(raw_xml_list[i])` of `shapes_to_xml` (lines 421-423):
append `raws[i]` for each index of the permutation, with a Python
`IndexError` on an out-of-range index. -/
def appendByIndex (raws : List SvgElem) : List ℕ → Except PyErr (List SvgElem)
  | [] => Except.ok []
  | i :: rest =>
      match raws.get? i, appendByIndex raws rest with
      | some e, Except.ok tail => Except.ok (e :: tail)
      | none, _ => Except.error PyErr.indexError
      | some _, Except.error err => Except.error err

/-- Model of `shapes_to_xml` (layer_to_xml.py lines 341-424).  `perm` is
the value returned by `np.argsort(z_index)` (see `IsArgsortOf`); the raw
elements are appended in the order `raw_xml_list[i] for i in perm`. -/
noncomputable def shapes_to_xml (perm : List ℕ)
    (data : List (List (ℝ × ℝ))) (m : ShapesMeta) :
    Except PyErr (SvgElem × Extrema) :=
  match (if data.length > 0 then extrema_shapes data m.t
         else Except.ok nanExtrema) with
  | Except.error err => Except.error err
  | Except.ok extrema =>
      match shapes_raw_elems data m with
      | Except.error err => Except.error err
      | Except.ok raw =>
          match appendByIndex raw perm with
          | Except.error err => Except.error err
          | Except.ok children =>
              Except.ok (SvgElem.g (layer_transforms_to_xml_ops m.t) children,
                extrema)

/-- Metadata keys read by `points_to_xml`.  `size` is the per-point size
array (the pre-0.4.18 two-dimensional anisotropic form, which the source
averages per point, is not used by any claim and is not modelled). -/
structure PointsMeta where
  t : TransformMeta := {}
  size : Option (List ℝ) := none
  faceColor : Option (List Col4) := none
  borderColor : Option (List Col4) := none
  edgeColor : Option (List Col4) := none
  borderWidth : Option (List ℝ) := none
  edgeWidth : Option (List ℝ) := none
  borderWidthIsRelative : Option Bool := none
  edgeWidthIsRelative : Option Bool := none
  opacity : Option ℝ := none

/-- Model of `np.broadcast_to(stroke_width, (n,))`: accepts an array of
length `n` or of length 1 (and Python scalars, modelled as singleton
lists); anything else is a broadcast error. -/
def broadcastTo (w : List ℝ) (n : ℕ) : Except PyErr (List ℝ) :=
  if w.length = n then Except.ok w
  else if w.length = 1 then Except.ok (List.replicate n (w.headD 0))
  else Except.error PyErr.matmulMismatch

/-- The per-point `circle` element loop of `points_to_xml` (lines 311-330). -/
noncomputable def pointCircles (pts : List (ℝ × ℝ)) (size : List ℝ)
    (faceColor strokeColor : List Col4) (strokeWidth : List ℝ)
    (opacity : ℝ) : List SvgElem :=
  match pts, size, faceColor, strokeColor, strokeWidth with
  | p :: ps, s :: ss, fc :: fcs, sc :: scs, sw :: sws =>
      SvgElem.circle p.2 p.1 (s / 2)
        { strokeWidth := sw, opacity := opacity, fill := some (col255 fc),
          fillNone := false, stroke := some (col255 sc), transform := none } ::
      pointCircles ps ss fcs scs sws opacity
  | _, _, _, _, _ => []

/-- Model of `points_to_xml` (layer_to_xml.py lines 231-332).  `k` is the
column count `data.shape[1]` of the points array; rows are lists of
coordinates (of length `k` for well-formed host data).  The explicit
dimensionality `ValueError` fires only for `k > 2`; for `k < 2` the
`coords @ matrix.T` product in `extrema_coords` fails with a shape
mismatch, and for an empty point list the `np.min` reduction in
`extrema_coords` fails. -/
noncomputable def points_to_xml (k : ℕ) (data : List (List ℝ))
    (m : PointsMeta) : Except PyErr (SvgElem × Extrema) :=
  let n := data.length
  let size := m.size.getD (List.replicate n 1)
  let faceColor := m.faceColor.getD (List.replicate n (1, 1, 1, 1))
  let strokeColor :=
    match m.borderColor with
    | some c => c
    | none => match m.edgeColor with
      | some c => c
      | none => List.replicate n (0, 0, 0, 1)
  let strokeWidth0 :=
    match m.borderWidth with
    | some w => w
    | none => match m.edgeWidth with
      | some w => w
      | none => List.replicate n 1
  let opacity := m.opacity.getD 1
  if k > 2 then Except.error PyErr.dimensionality
  else if k = 2 then
    let pts := data.map (fun r => (r.getD 0 0, r.getD 1 0))
    match extrema_coords pts m.t, broadcastTo strokeWidth0 n with
    | Except.ok extrema, Except.ok strokeWidth1 =>
        let strokeWidth :=
          if m.borderWidthIsRelative.getD false ||
             m.edgeWidthIsRelative.getD false
          then (strokeWidth1.zip size).map (fun p => p.1 * p.2)
          else strokeWidth1
        Except.ok (SvgElem.g (layer_transforms_to_xml_ops m.t)
          (pointCircles pts size faceColor strokeColor strokeWidth opacity),
          extrema)
    | Except.error err, _ => Except.error err
    | Except.ok _, Except.error err => Except.error err
  else Except.error PyErr.matmulMismatch

/-- Metadata keys read by `vectors_to_xml`. -/
structure VectorsMeta where
  t : TransformMeta := {}
  edgeColor : Option (List Col4) := none
  edgeWidth : Option ℝ := none
  length : Option ℝ := none
  opacity : Option ℝ := none

/-- Model of `extrema_vectors` (layer_to_xml.py lines 427-438): the stacked
origins followed by the projected endpoints `origin + length * direction`.
`d` is the trailing spatial dimension `data.shape[2]`; the
`coords @ matrix.T` product requires `d = 2`. -/
noncomputable def extrema_vectors (d : ℕ) (data : List (List ℝ × List ℝ))
    (m : VectorsMeta) : Except PyErr Extrema :=
  let len := m.length.getD 1
  if d = 2 then
    let origins := data.map (fun v => (v.1.getD 0 0, v.1.getD 1 0))
    let ends := data.map (fun v =>
      (v.1.getD 0 0 + len * v.2.getD 0 0, v.1.getD 1 0 + len * v.2.getD 1 0))
    extrema_coords (origins ++ ends) m.t
  else Except.error PyErr.matmulMismatch

/-- The per-vector `line` element loop of `vectors_to_xml` (lines 501-510):
`v[0,-2], v[0,-1]` are indices 0, 1 once `d = 2`, and the element receives
the locals under the row/column to y/x swap. -/
noncomputable def vectorLines (data : List (List ℝ × List ℝ))
    (edgeColor : List Col4) (len edgeWidth opacity : ℝ) : List SvgElem :=
  match data, edgeColor with
  | v :: vs, ec :: ecs =>
      SvgElem.line (v.1.getD 1 0) (v.1.getD 0 0)
        (v.1.getD 1 0 + len * v.2.getD 1 0) (v.1.getD 0 0 + len * v.2.getD 0 0)
        { strokeWidth := edgeWidth, opacity := opacity, fill := none,
          fillNone := false, stroke := some (col255 ec), transform := none } ::
      vectorLines vs ecs len edgeWidth opacity
  | _, _ => []

/-- Model of `vectors_to_xml` (layer_to_xml.py lines 441-513).  Each data
entry is an `(origin, direction)` pair of coordinate lists of length `d =
data.shape[2]`. -/
noncomputable def vectors_to_xml (d : ℕ) (data : List (List ℝ × List ℝ))
    (m : VectorsMeta) : Except PyErr (SvgElem × Extrema) :=
  let edgeColor := m.edgeColor.getD (List.replicate data.length (0, 0, 0, 1))
  let edgeWidth := m.edgeWidth.getD 1
  let len := m.length.getD 1
  let opacity := m.opacity.getD 1
  if d > 2 then Except.error PyErr.dimensionality
  else
    match extrema_vectors d data m with
    | Except.error err => Except.error err
    | Except.ok extrema =>
        Except.ok (SvgElem.g (layer_transforms_to_xml_ops m.t)
          (vectorLines data edgeColor len edgeWidth opacity), extrema)

/-- Image data as seen by `image_to_xml`: a single array (represented by
its shape, since only the shape reaches the dimensionality check, the
extrema and the emitted width/height) or a multiscale list of arrays. -/
inductive ImgData where
  | arr (shape : List ℕ)
  | stack (shapes : List (List ℕ))

/-- Metadata keys of `image_to_xml` that influence the modelled output
(`contrast_limits` and `colormap` only affect pixel values inside the
embedded PNG payload, which the claims do not touch). -/
structure ImageMeta where
  t : TransformMeta := {}
  multiscale : Option Bool := none
  rgb : Option Bool := none
  opacity : Option ℝ := none

/-- Model of `np.squeeze`: drop all singleton dimensions. -/
def npSqueeze (shape : List ℕ) : List ℕ := shape.filter (fun d => d ≠ 1)

/-- The `if multiscale: data = data[-1]` selection (lines 170-171).  For a
multiscale list the last level is taken (`IndexError` on an empty list);
`data[-1]` on a plain array drops the leading axis; a list passed with
`multiscale` unset is outside the host contract and not modelled. -/
def selectMultiscale (data : ImgData) (multiscale : Bool) :
    Except PyErr (List ℕ) :=
  match multiscale, data with
  | false, ImgData.arr s => Except.ok s
  | true, ImgData.stack l =>
      match l.getLast? with
      | some s => Except.ok s
      | none => Except.error PyErr.indexError
  | true, ImgData.arr s =>
      match s with
      | [] => Except.error PyErr.indexError
      | a :: rest => if a = 0 then Except.error PyErr.indexError else Except.ok rest
  | false, ImgData.stack _ => Except.error PyErr.hostContract

/-- Model of `image_to_xml` (layer_to_xml.py lines 120-220): multiscale
selection, `np.squeeze`, the `ndim - int(rgb) > 2` dimensionality check,
then the extrema (which is where non-2-dimensional squeezed shapes make
numpy raise, see `extrema_image`) and the emitted element with
`width = shape[1]`, `height = shape[0]`. -/
noncomputable def image_to_xml (data : ImgData) (m : ImageMeta) :
    Except PyErr (SvgElem × Extrema) :=
  let multiscale := m.multiscale.getD false
  let rgb := m.rgb.getD false
  let opacity := m.opacity.getD 1
  match selectMultiscale data multiscale with
  | Except.error err => Except.error err
  | Except.ok selected =>
      let image := npSqueeze selected
      if ((image.length : ℤ) - (if rgb then 1 else 0)) > 2 then
        Except.error PyErr.dimensionality
      else
        match extrema_image image m.t with
        | Except.error err => Except.error err
        | Except.ok extrema =>
            Except.ok (SvgElem.image (image.getD 1 0) (image.getD 0 0) opacity
              (layer_transforms_to_xml_ops m.t), extrema)

/-! ## Writer hooks (`hook_implementations.py`) -/

/-- Index of the last occurrence of a character in a character list. -/
def lastIdxOf (c : Char) : List Char → Option ℕ
  | [] => none
  | x :: xs =>
      match lastIdxOf c xs with
      | some i => some (i + 1)
      | none => if x = c then some 0 else none

/-- The extension part of `os.path.splitext(path)` (CPython semantics):
the suffix from the last dot, provided it lies after the last `/` and the
basename characters before it are not all dots. -/
def splitextExt (path : String) : String :=
  let cs := path.data
  match lastIdxOf '.' cs with
  | none => ""
  | some di =>
      let si : ℤ := match lastIdxOf '/' cs with
        | none => -1
        | some j => (j : ℤ)
      if si < (di : ℤ) then
        let base := (cs.drop (si + 1).toNat).take (di - (si + 1).toNat)
        if base.any (fun ch => ch ≠ '.') then String.mk (cs.drop di) else ""
      else ""

/-- The `supported_layers` list (hook_implementations.py line 16). -/
def supported_layers : List String :=
  ["image", "points", "labels", "shapes", "vectors"]

/-- Model of `napari_get_writer` (hook_implementations.py lines 19-51):
reject any unsupported layer type, reject a non-`.svg` extension, and
otherwise return the writer callable (modelled as `some ()`); no layer
conversion happens here. -/
def napari_get_writer (path : String) (layerTypes : List String) :
    Option Unit :=
  if layerTypes.all (fun lt => supported_layers.contains lt) then
    let ext := splitextExt path
    if ext = "" then some ()
    else if ext = ".svg" then some ()
    else none
  else none

/-- The path handling of `writer` (hook_implementations.py lines 70-78):
the materialized target name, `none` when the extension is foreign or no
layer data was supplied. -/
def writer_path (path : String) (numLayers : ℕ) : Option String :=
  let ext := splitextExt path
  if ext = "" then
    (if numLayers = 0 then none else some (path ++ ".svg"))
  else if ext = ".svg" then
    (if numLayers = 0 then none else some path)
  else none

/-! ## Theorems for claims C2 and C7 -/

theorem fmin_comm (a b : Option ℝ) : fmin a b = fmin b a := by
  cases a <;> cases b <;> simp [fmin, min_comm]

theorem fmax_comm (a b : Option ℝ) : fmax a b = fmax b a := by
  cases a <;> cases b <;> simp [fmax, max_comm]

theorem fmin_assoc (a b c : Option ℝ) : fmin (fmin a b) c = fmin a (fmin b c) := by
  cases a <;> cases b <;> cases c <;> simp [fmin, min_assoc]

theorem fmax_assoc (a b c : Option ℝ) : fmax (fmax a b) c = fmax a (fmax b c) := by
  cases a <;> cases b <;> cases c <;> simp [fmax, max_assoc]

theorem mergeExtrema_comm (x y : Extrema) : mergeExtrema x y = mergeExtrema y x := by
  simp [mergeExtrema, fmin_comm, fmax_comm]

theorem mergeExtrema_assoc (x y z : Extrema) :
    mergeExtrema (mergeExtrema x y) z = mergeExtrema x (mergeExtrema y z) := by
  simp [mergeExtrema, fmin_assoc, fmax_assoc]

theorem mergeExtrema_right_comm (x y z : Extrema) :
    mergeExtrema (mergeExtrema x y) z = mergeExtrema (mergeExtrema x z) y := by
  rw [mergeExtrema_assoc, mergeExtrema_assoc, mergeExtrema_comm y z]

theorem fmin_none_left (b : Option ℝ) : fmin none b = b := by
  cases b <;> rfl

theorem fmax_none_left (b : Option ℝ) : fmax none b = b := by
  cases b <;> rfl

theorem fmin_eq_none (a b : Option ℝ) : fmin a b = none ↔ a = none ∧ b = none := by
  cases a <;> cases b <;> simp [fmin]

theorem fmax_eq_none (a b : Option ℝ) : fmax a b = none ↔ a = none ∧ b = none := by
  cases a <;> cases b <;> simp [fmax]

theorem mergeExtrema_allNaN (x y : Extrema) (h : (mergeExtrema x y).allNaN) :
    x.allNaN ∧ y.allNaN := by
  obtain ⟨h1, h2, h3, h4⟩ := h
  rw [mergeExtrema] at h1 h2 h3 h4
  simp only [fmin_eq_none, fmax_eq_none] at h1 h2 h3 h4
  exact ⟨⟨h1.1, h2.1, h3.1, h4.1⟩, ⟨h1.2, h2.2, h3.2, h4.2⟩⟩

theorem writerStep_right_comm (b : Option Extrema) (x y : Extrema) :
    writerStep (writerStep b x) y = writerStep (writerStep b y) x := by
  cases b with
  | none => simp [writerStep, mergeExtrema_comm x y]
  | some a => simp [writerStep, mergeExtrema_right_comm]

theorem writerExtrema_foldl_allNaN (l : List Extrema) :
    ∀ (a e : Extrema), l.foldl writerStep (some a) = some e → e.allNaN →
      a.allNaN ∧ ∀ x ∈ l, x.allNaN := by
  induction l with
  | nil =>
      intro a e h hn
      simp only [List.foldl_nil, Option.some.injEq] at h
      subst h
      exact ⟨hn, by simp⟩
  | cons b t ih =>
      intro a e h hn
      simp only [List.foldl_cons, writerStep] at h
      obtain ⟨hm, ht⟩ := ih (mergeExtrema a b) e h hn
      obtain ⟨ha, hb⟩ := mergeExtrema_allNaN a b hm
      refine ⟨ha, ?_⟩
      intro x hx
      rcases List.mem_cons.mp hx with hx | hx
      · exact hx ▸ hb
      · exact ht x hx

/-- C2: the writer's pairwise extrema merge is commutative and associative,
an all-NaN extrema is neutral against an all-finite one, the writer's fold
over the layer list is invariant under permutation of the layers (hence
independent of order, and of grouping by associativity), and the fold
result is all-NaN only if every layer's extrema was all-NaN. -/
theorem extrema_merge_comm_assoc_nan_neutral :
    (∀ x y, mergeExtrema x y = mergeExtrema y x) ∧
    (∀ x y z, mergeExtrema (mergeExtrema x y) z = mergeExtrema x (mergeExtrema y z)) ∧
    (∀ x y, x.allNaN → y.allFinite → mergeExtrema x y = y) ∧
    (∀ l1 l2 : List Extrema, l1.Perm l2 → writerExtrema l1 = writerExtrema l2) ∧
    (∀ (l : List Extrema) (e : Extrema), writerExtrema l = some e → e.allNaN →
      ∀ x ∈ l, x.allNaN) := by
  refine ⟨mergeExtrema_comm, mergeExtrema_assoc, ?_, ?_, ?_⟩
  · intro x y hx _
    obtain ⟨h1, h2, h3, h4⟩ := hx
    cases y with
    | mk m0 m1 x0 x1 =>
        simp [mergeExtrema, h1, h2, h3, h4, fmin_none_left, fmax_none_left]
  · intro l1 l2 h
    haveI : RightCommutative writerStep := ⟨writerStep_right_comm⟩
    exact List.Perm.foldl_eq h none
  · intro l e h hn
    cases l with
    | nil => intro x hx; simp at hx
    | cons b t =>
        simp only [writerExtrema, List.foldl_cons, writerStep] at h
        obtain ⟨hb, ht⟩ := writerExtrema_foldl_allNaN t b e h hn
        intro x hx
        rcases List.mem_cons.mp hx with hx | hx
        · exact hx ▸ hb
        · exact ht x hx

/-- Witness for C2 at concrete extrema: merging the NaN sentinel with a
finite extrema returns the finite one, a concrete merge commutes, and the
writer fold agrees on a concrete two-layer list and its swap. -/
theorem extrema_merge_comm_assoc_nan_neutral_witness :
    mergeExtrema nanExtrema (Extrema.finite 0 1 2 3) = Extrema.finite 0 1 2 3 ∧
    mergeExtrema (Extrema.finite 0 1 2 3) (Extrema.finite (-1) 5 0 2) =
      mergeExtrema (Extrema.finite (-1) 5 0 2) (Extrema.finite 0 1 2 3) ∧
    writerExtrema [Extrema.finite 0 1 2 3, Extrema.finite (-1) 5 0 2] =
      writerExtrema [Extrema.finite (-1) 5 0 2, Extrema.finite 0 1 2 3] := by
  refine ⟨?_, ?_, ?_⟩
  · exact extrema_merge_comm_assoc_nan_neutral.2.2.1 nanExtrema (Extrema.finite 0 1 2 3)
      (by simp [nanExtrema, Extrema.allNaN]) (by simp [Extrema.finite, Extrema.allFinite])
  · exact extrema_merge_comm_assoc_nan_neutral.1 _ _
  · exact extrema_merge_comm_assoc_nan_neutral.2.2.2.1 _ _
      (List.Perm.swap (Extrema.finite (-1) 5 0 2) (Extrema.finite 0 1 2 3) [])

/-- C7: `xml_to_svg` replaces NaN extrema entries by 0, takes
`shape = max - min` with zero components coerced to 1, sets the root
height to `shape[0]` and width to `shape[1]`, and consequently the height
and width of the emitted document are never 0. -/
theorem xml_to_svg_never_zero_size (xmlList : List SvgElem) (extrema : Extrema) :
    (xml_to_svg xmlList extrema).height =
      (if nanToNum extrema.max0 - nanToNum extrema.min0 = 0 then 1
       else nanToNum extrema.max0 - nanToNum extrema.min0) ∧
    (xml_to_svg xmlList extrema).width =
      (if nanToNum extrema.max1 - nanToNum extrema.min1 = 0 then 1
       else nanToNum extrema.max1 - nanToNum extrema.min1) ∧
    (xml_to_svg xmlList extrema).height ≠ 0 ∧
    (xml_to_svg xmlList extrema).width ≠ 0 := by
  refine ⟨rfl, rfl, ?_, ?_⟩ <;> simp only [xml_to_svg] <;> split <;> norm_num
  · assumption
  · assumption

/-! ## Theorems for claims C5, C6, C8, C9, C10 -/

theorem arg_mk_eq_zero {x y : ℝ} (hx : 0 ≤ x) (hy : y = 0) :
    Complex.arg ⟨x, y⟩ = 0 :=
  Complex.arg_eq_zero_iff.mpr ⟨hx, hy⟩

/-- The recovered rotation angle vanishes when the first (x/y-flipped) edge
points straight down: zero x-offset and negative y-offset. -/
theorem recoveredAngle_eq_zero {d0 d1 : ℝ × ℝ} (hx : d1.1 = d0.1)
    (hy : d1.2 ≤ d0.2) : recoveredAngle d0 d1 = 0 := by
  unfold recoveredAngle atan2
  rw [arg_mk_eq_zero (by linarith) (by rw [hx]; ring), neg_zero]

/-- C5 (code bug): on an axis-aligned ellipse whose recovered rotation
angle is zero, `ellipse_to_xml` does not return an ellipse element built
from the vertices as the spec and its own docstring describe; it raises
`UnboundLocalError` because the `angle == 0` branch reads `cen`, which only
the rotated branch assigns. -/
theorem ellipse_to_xml_zero_angle_raises :
    ellipse_to_xml [((10 : ℝ), 0), (0, 0), (0, 10), (10, 10)] {} =
      Except.error PyErr.unboundLocalCen := by
  have hangle : recoveredAngle ((0 : ℝ), (10 : ℝ)) ((0 : ℝ), (0 : ℝ)) = 0 :=
    recoveredAngle_eq_zero (by norm_num) (by norm_num)
  simp only [ellipse_to_xml, List.map_cons, List.map_nil, swap2,
    List.length_cons, List.length_nil, List.getD]
  norm_num [hangle]
  intro h
  exact absurd hangle h

/-- C6 (code bug): the dimensionality `ValueError` checks fire exactly for
more than two columns / spatial dimensions, but the converters do not
otherwise return normally: `image_to_xml` fails on any squeezed shape that
is not exactly two-dimensional (here the valid 2-D image `(20, 1)` and the
rgb image `(20, 20, 3)`, both of which its docstring declares supported),
and `points_to_xml` fails on an empty point list. -/
theorem dimensionality_check_divergences :
    image_to_xml (ImgData.arr [20, 1]) {} = Except.error PyErr.raggedArray ∧
    image_to_xml (ImgData.arr [20, 20, 3]) { rgb := some true } =
      Except.error PyErr.raggedArray ∧
    image_to_xml (ImgData.arr [20, 20, 20]) {} =
      Except.error PyErr.dimensionality ∧
    (image_to_xml (ImgData.arr [20, 20]) {}).isOk = true ∧
    points_to_xml 3 [[0, 0, 0]] {} = Except.error PyErr.dimensionality ∧
    points_to_xml 2 ([] : List (List ℝ)) {} =
      Except.error PyErr.zeroSizeReduction ∧
    (points_to_xml 2 [[0, 0]] {}).isOk = true ∧
    vectors_to_xml 3 [([0, 0, 0], [1, 1, 1])] {} =
      Except.error PyErr.dimensionality ∧
    (vectors_to_xml 2 [([0, 0], [1, 1])] {}).isOk = true := by
  refine ⟨rfl, rfl, rfl, rfl, rfl, rfl, rfl, rfl, rfl⟩

/-- C8: on an empty shape list (with the metadata z-index list accordingly
empty, as the host supplies it) `shapes_to_xml` does not raise: it returns
a group with no children and the all-NaN extrema sentinel. -/
theorem shapes_to_xml_empty (m : ShapesMeta) (perm : List ℕ)
    (hz : shapes_z_index [] m = ([] : List ℝ))
    (hp : IsArgsortOf (shapes_z_index [] m) perm) :
    shapes_to_xml perm [] m =
      Except.ok (SvgElem.g (layer_transforms_to_xml_ops m.t) [], nanExtrema) := by
  have hperm : perm = [] := by
    rcases hp with ⟨hp1, -⟩
    rw [hz] at hp1
    simpa using hp1
  subst hperm
  rfl

/-- Witness for C8 at the empty layer with empty metadata. -/
theorem shapes_to_xml_empty_witness :
    shapes_z_index [] {} = ([] : List ℝ) ∧
    IsArgsortOf (shapes_z_index [] {}) [] ∧
    shapes_to_xml [] [] {} =
      Except.ok (SvgElem.g (layer_transforms_to_xml_ops ({} : ShapesMeta).t) [],
        nanExtrema) := by
  have hz : shapes_z_index [] {} = ([] : List ℝ) := rfl
  have hp : IsArgsortOf (shapes_z_index [] {}) [] := by
    constructor
    · rw [hz]; rfl
    · simp
  exact ⟨hz, hp, shapes_to_xml_empty {} [] hz hp⟩

/-- C9: `napari_get_writer` returns `None` exactly when some requested
layer type is unsupported or the path carries a non-`.svg` extension (no
conversion is involved in this decision); a path with no extension is
accepted and the writer materializes it with an `.svg` suffix, so writing
`out` targets `out.svg` while `out.csv` is rejected by both. -/
theorem napari_get_writer_rejection :
    (∀ (path : String) (layerTypes : List String),
      napari_get_writer path layerTypes = none ↔
        ((∃ lt ∈ layerTypes, lt ∉ supported_layers) ∨
          (splitextExt path ≠ "" ∧ splitextExt path ≠ ".svg"))) ∧
    napari_get_writer "out.csv" ["image", "points"] = none ∧
    writer_path "out.csv" 2 = none ∧
    napari_get_writer "out" ["image", "points"] = some () ∧
    writer_path "out" 2 = some "out.svg" ∧
    napari_get_writer "out.svg" ["image", "bad_type"] = none := by
  refine ⟨?_, by decide, by decide, by decide, by decide, by decide⟩
  intro path lts
  unfold napari_get_writer
  by_cases hall : lts.all (fun lt => supported_layers.contains lt) = true
  · rw [if_pos hall]
    have hmem : ¬ ∃ lt ∈ lts, lt ∉ supported_layers := by
      simp only [List.all_eq_true] at hall
      push_neg
      intro lt hlt
      simpa using hall lt hlt
    by_cases h1 : splitextExt path = ""
    · simp [h1, hmem]
    · by_cases h2 : splitextExt path = ".svg"
      · simp [h1, h2, hmem]
      · simp [h1, h2, hmem]
  · rw [if_neg hall]
    have hmem : ∃ lt ∈ lts, lt ∉ supported_layers := by
      simp only [List.all_eq_true] at hall
      push_neg at hall
      obtain ⟨lt, hlt, hc⟩ := hall
      exact ⟨lt, hlt, by simpa using hc⟩
    simp [hmem]

/-- C10 counterexample: the squeezed shape of the valid image `(1, 20)` has
only one dimension, which is at most 2, yet `image_to_xml` does not accept
it: the extrema construction fails on the ragged
`np.array([[0, 0], list(shape)])`. -/
theorem image_to_xml_squeeze_counterexample :
    (npSqueeze [1, 20]).length ≤ 2 ∧
    image_to_xml (ImgData.arr [1, 20]) {} = Except.error PyErr.raggedArray := by
  exact ⟨by decide, rfl⟩

/-- C10 (amended): `image_to_xml` squeezes singleton dimensions after
multiscale selection and before the dimensionality check, and accepts a
plain array exactly when its squeezed shape has exactly two dimensions, in
which case the emitted width/height and the extrema are those of the
squeezed array. -/
theorem image_to_xml_squeeze_behavior :
    (∀ (shape : List ℕ) (m : ImageMeta), m.multiscale = none →
      ((image_to_xml (ImgData.arr shape) m).isOk = true ↔
        (npSqueeze shape).length = 2)) ∧
    (∀ (shape : List ℕ) (m : ImageMeta), m.multiscale = none →
      (npSqueeze shape).length = 2 →
      image_to_xml (ImgData.arr shape) m =
        (extrema_image (npSqueeze shape) m.t).map (fun ext =>
          (SvgElem.image ((npSqueeze shape).getD 1 0)
            ((npSqueeze shape).getD 0 0) (m.opacity.getD 1)
            (layer_transforms_to_xml_ops m.t), ext))) ∧
    (∀ (shapes : List (List ℕ)) (m : ImageMeta) (s0 : List ℕ),
      m.multiscale = some true → shapes.getLast? = some s0 →
      image_to_xml (ImgData.stack shapes) m =
        image_to_xml (ImgData.arr s0) { m with multiscale := none }) := by
  refine ⟨?_, ?_, ?_⟩
  · intro shape m hms
    obtain ⟨t, ms, rgb, op⟩ := m
    replace hms : ms = none := hms
    subst hms
    simp only [image_to_xml, selectMultiscale, Option.getD_none]
    by_cases h2 : (npSqueeze shape).length = 2
    · have hdim : ¬ (((npSqueeze shape).length : ℤ) -
          (if rgb.getD false then 1 else 0) > 2) := by
        rw [h2]; split <;> norm_num
      rw [if_neg hdim]
      simp only [extrema_image]
      rw [if_pos h2]
      simp [extrema_coords, h2, Except.isOk, Except.toBool]
    · by_cases hdim : (((npSqueeze shape).length : ℤ) -
          (if rgb.getD false then 1 else 0) > 2)
      · rw [if_pos hdim]
        simp [Except.isOk, Except.toBool, h2]
      · rw [if_neg hdim]
        simp only [extrema_image]
        rw [if_neg h2]
        simp [Except.isOk, Except.toBool, h2]
  · intro shape m hms h2
    obtain ⟨t, ms, rgb, op⟩ := m
    replace hms : ms = none := hms
    subst hms
    have hdim : ¬ (((npSqueeze shape).length : ℤ) -
        (if rgb.getD false then 1 else 0) > 2) := by
      rw [h2]; split <;> norm_num
    simp only [image_to_xml, selectMultiscale, Option.getD_none]
    rw [if_neg hdim]
    cases hext : extrema_image (npSqueeze shape) t with
    | error err => simp [hext, Except.map]
    | ok ext => simp [hext, Except.map]
  · intro shapes m s0 hms hlast
    obtain ⟨t, ms, rgb, op⟩ := m
    replace hms : ms = some true := hms
    subst hms
    simp [image_to_xml, selectMultiscale, hlast]

/-- Witness for C10 at the concrete shape `(1, 1, 20, 20)` with empty
metadata: the squeezed shape is `(20, 20)` and the conversion emits a
20 x 20 image element with the extrema of the squeezed array. -/
theorem image_to_xml_squeeze_behavior_witness :
    ({} : ImageMeta).multiscale = none ∧
    (npSqueeze [1, 1, 20, 20]).length = 2 ∧
    (image_to_xml (ImgData.arr [1, 1, 20, 20]) {}).isOk = true ∧
    image_to_xml (ImgData.arr [1, 1, 20, 20]) {} =
      (extrema_image [20, 20] ({} : ImageMeta).t).map (fun ext =>
        (SvgElem.image 20 20 1 (layer_transforms_to_xml_ops ({} : ImageMeta).t),
          ext)) := by
  have h2 : (npSqueeze [1, 1, 20, 20]).length = 2 := by decide
  refine ⟨rfl, h2, ?_, ?_⟩
  · exact (image_to_xml_squeeze_behavior.1 [1, 1, 20, 20] {} rfl).mpr h2
  · have := image_to_xml_squeeze_behavior.2.1 [1, 1, 20, 20] {} rfl h2
    simpa [npSqueeze] using this

/-! ## Theorems for claim C3 -/

theorem appendByIndex_ok (raws : List SvgElem) :
    ∀ (perm : List ℕ) (children : List SvgElem),
      appendByIndex raws perm = Except.ok children →
      children = perm.map (fun i => raws.getD i (SvgElem.g [] [])) := by
  intro perm
  induction perm with
  | nil =>
      intro children h
      simp only [appendByIndex, Except.ok.injEq] at h
      simp [h.symm]
  | cons i rest ih =>
      intro children h
      simp only [appendByIndex] at h
      cases hg : raws.get? i with
      | none => rw [hg] at h; simp at h
      | some e =>
          rw [hg] at h
          cases happ : appendByIndex raws rest with
          | error err => rw [happ] at h; simp at h
          | ok tail =>
              rw [happ] at h
              simp only [Except.ok.injEq] at h
              rw [← h, List.map_cons, ih tail happ]
              have : raws.getD i (SvgElem.g [] []) = e := by
                simp [List.getD_eq_getElem?_getD, ← List.get?_eq_getElem?, hg]
              rw [this]

/-- A unit square with row extent 0-1 and column extent c-(c+1), with
vertices listed so that the first edge recovers a zero rotation angle. -/
def zRectData (c : ℝ) : List (ℝ × ℝ) := [(1, c), (0, c), (0, c + 1), (1, c + 1)]

/-- The style properties `shapes_to_xml` passes to the shape encoders when
the metadata carries no colour or width keys. -/
noncomputable def zShapeProps : ShapeProps :=
  { strokeWidth := 1, opacity := 1, fill := some (col255 (1, 1, 1, 1)),
    fillNone := false, stroke := some (col255 (0, 0, 0, 1)), transform := none }

theorem rectangle_to_xml_unit_square (c : ℝ) (props : ShapeProps) :
    rectangle_to_xml (zRectData c) props =
      Except.ok (SvgElem.rect c 0 1 1 props) := by
  have hangle : recoveredAngle ((c : ℝ), (1 : ℝ)) (c, 0) = 0 :=
    recoveredAngle_eq_zero rfl (by norm_num)
  have hx : min4 c c (c + 1) (c + 1) = c := by
    unfold min4
    rw [min_self, min_eq_left (by linarith : c ≤ c + 1),
      min_eq_left (by linarith : c ≤ c + 1)]
  have hy : min4 (1 : ℝ) 0 0 1 = 0 := by
    unfold min4
    rw [min_eq_right (by norm_num : (0 : ℝ) ≤ 1), min_self,
      min_eq_left (by norm_num : (0 : ℝ) ≤ 1)]
  simp only [zRectData, rectangle_to_xml, List.map_cons, List.map_nil, swap2,
    List.length_cons, List.length_nil, List.getD]
  norm_num [hangle, hx, hy]

/-- C3 counterexample: with two distinct rectangles of equal z-index 0, the
permutation `[1, 0]` is a legitimate return value of numpy's (unstable)
default `argsort`, and under it `shapes_to_xml` appends the two emitted
elements in reversed input order, so the tie is not broken by original
input order. -/
theorem shapes_to_xml_zorder_counterexample :
    IsArgsortOf (shapes_z_index [zRectData 0, zRectData 10]
      { zIndex := some [0, 0] }) [1, 0] ∧
    (shapes_to_xml [1, 0] [zRectData 0, zRectData 10]
        { zIndex := some [0, 0] }).map (fun r => r.1.childrenOf) =
      Except.ok [SvgElem.rect 10 0 1 1 zShapeProps,
        SvgElem.rect 0 0 1 1 zShapeProps] ∧
    SvgElem.rect 10 0 1 1 zShapeProps ≠ SvgElem.rect 0 0 1 1 zShapeProps := by
  refine ⟨⟨by decide, by
    norm_num [shapes_z_index, List.getD, List.Sorted, List.sorted_cons]⟩, ?_, ?_⟩
  · have hraw : shapes_raw_elems [zRectData 0, zRectData 10]
        { zIndex := some [0, 0] } =
        Except.ok [SvgElem.rect 0 0 1 1 zShapeProps,
          SvgElem.rect 10 0 1 1 zShapeProps] := by
      simp only [shapes_raw_elems, rawShapeElems, shape_type_to_xml,
        List.length_cons, List.length_nil, List.replicate, Option.getD_none,
        rectangle_to_xml_unit_square, zShapeProps]
    simp only [shapes_to_xml, hraw]
    cases hext : (if ([zRectData 0, zRectData 10] : List (List (ℝ × ℝ))).length > 0
        then extrema_shapes [zRectData 0, zRectData 10]
          ({ zIndex := some [0, 0] } : ShapesMeta).t
        else Except.ok nanExtrema) with
    | error err =>
        exfalso
        rw [if_pos (by norm_num)] at hext
        simp only [extrema_shapes, extrema_coords, zRectData,
          List.flatten, List.map_cons, List.map_nil, List.append_nil] at hext
        exact absurd hext (by simp)
    | ok ext =>
        simp only [appendByIndex, List.get?]
        rfl
  · intro h
    rw [SvgElem.rect.injEq] at h
    exact absurd h.1 (by norm_num)

/-- C3 (amended): a successful `shapes_to_xml` emits, as the group's
children, exactly the per-shape elements built in input order by the
dispatch table, re-ordered by the `argsort` permutation of the z-index
keys; when the z-indices are `[2, 0, 1]` (all distinct) that permutation
is necessarily `[1, 2, 0]`, so the children appear in input-index order
`[1, 2, 0]` — but for equal z-index values the order within the tie is
whatever the unstable sort returns, not necessarily input order. -/
theorem shapes_to_xml_zorder_amended :
    (∀ (perm : List ℕ) (data : List (List (ℝ × ℝ))) (m : ShapesMeta)
        (res : SvgElem × Extrema),
      shapes_to_xml perm data m = Except.ok res →
      ∃ raws, shapes_raw_elems data m = Except.ok raws ∧
        res.1 = SvgElem.g (layer_transforms_to_xml_ops m.t)
          (perm.map (fun i => raws.getD i (SvgElem.g [] [])))) ∧
    (∀ perm : List ℕ, IsArgsortOf [2, 0, 1] perm → perm = [1, 2, 0]) := by
  constructor
  · intro perm data m res h
    unfold shapes_to_xml at h
    cases hext : (if data.length > 0 then extrema_shapes data m.t
        else Except.ok nanExtrema) with
    | error err => simp only [hext] at h; exact Except.noConfusion h
    | ok ext =>
        simp only [hext] at h
        cases hraw : shapes_raw_elems data m with
        | error err => simp only [hraw] at h; exact Except.noConfusion h
        | ok raws =>
            simp only [hraw] at h
            cases happ : appendByIndex raws perm with
            | error err => simp only [happ] at h; exact Except.noConfusion h
            | ok children =>
                simp only [happ, Except.ok.injEq] at h
                refine ⟨raws, rfl, ?_⟩
                rw [← h]
                rw [← appendByIndex_ok raws perm children happ]
  · intro perm hp
    obtain ⟨hp1, hp2⟩ := hp
    have hlen : perm.length = 3 := by simpa using hp1.length_eq
    have hrange : perm.Perm [0, 1, 2] := by simpa using hp1
    rcases perm with - | ⟨a, - | ⟨b, - | ⟨c, - | ⟨d, t⟩⟩⟩⟩ <;> simp at hlen
    have ha : a ∈ [0, 1, 2] := hrange.subset (by simp)
    have hb : b ∈ [0, 1, 2] := hrange.subset (by simp)
    have hc : c ∈ [0, 1, 2] := hrange.subset (by simp)
    simp only [List.mem_cons, List.mem_singleton, List.not_mem_nil,
      or_false] at ha hb hc
    rcases ha with rfl | rfl | rfl <;> rcases hb with rfl | rfl | rfl <;>
      rcases hc with rfl | rfl | rfl <;>
      first
        | rfl
        | exact absurd hrange (by decide)
        | (exfalso; revert hp2;
           norm_num [List.getD, List.Sorted, List.sorted_cons])

/-- Witness for C3 at three unit squares with z-index `[2, 0, 1]`: the only
argsort permutation is `[1, 2, 0]` and the children come out in
input-index order 1, 2, 0. -/
theorem shapes_to_xml_zorder_amended_witness :
    IsArgsortOf [2, 0, 1] [1, 2, 0] ∧
    shapes_z_index [zRectData 0, zRectData 10, zRectData 20]
      { zIndex := some [2, 0, 1] } = [2, 0, 1] ∧
    (shapes_to_xml [1, 2, 0] [zRectData 0, zRectData 10, zRectData 20]
        { zIndex := some [2, 0, 1] }).map (fun r => r.1.childrenOf) =
      Except.ok [SvgElem.rect 10 0 1 1 zShapeProps,
        SvgElem.rect 20 0 1 1 zShapeProps,
        SvgElem.rect 0 0 1 1 zShapeProps] := by
  have hsort : IsArgsortOf [2, 0, 1] [1, 2, 0] :=
    ⟨by decide, by norm_num [List.getD, List.Sorted, List.sorted_cons]⟩
  have huniq := shapes_to_xml_zorder_amended.2 [1, 2, 0] hsort
  refine ⟨hsort, rfl, ?_⟩
  have hraw : shapes_raw_elems [zRectData 0, zRectData 10, zRectData 20]
      { zIndex := some [2, 0, 1] } =
      Except.ok [SvgElem.rect 0 0 1 1 zShapeProps,
        SvgElem.rect 10 0 1 1 zShapeProps,
        SvgElem.rect 20 0 1 1 zShapeProps] := by
    simp only [shapes_raw_elems, rawShapeElems, shape_type_to_xml,
      List.length_cons, List.length_nil, List.replicate, Option.getD_none,
      rectangle_to_xml_unit_square, zShapeProps]
  cases hok : shapes_to_xml [1, 2, 0]
      [zRectData 0, zRectData 10, zRectData 20]
      { zIndex := some [2, 0, 1] } with
  | error err =>
      exfalso
      revert hok
      simp only [shapes_to_xml, hraw]
      cases hext : (if ([zRectData 0, zRectData 10, zRectData 20] :
          List (List (ℝ × ℝ))).length > 0
          then extrema_shapes [zRectData 0, zRectData 10, zRectData 20]
            ({ zIndex := some [2, 0, 1] } : ShapesMeta).t
          else Except.ok nanExtrema) with
      | error err2 =>
          exfalso
          rw [if_pos (by norm_num)] at hext
          simp only [extrema_shapes, extrema_coords, zRectData,
            List.flatten, List.map_cons, List.map_nil, List.append_nil] at hext
          exact absurd hext (by simp)
      | ok ext => simp [appendByIndex, List.get?]
  | ok res =>
      obtain ⟨raws, hr, hg⟩ :=
        shapes_to_xml_zorder_amended.1 [1, 2, 0]
          [zRectData 0, zRectData 10, zRectData 20]
          { zIndex := some [2, 0, 1] } res hok
      rw [hraw] at hr
      simp only [Except.ok.injEq] at hr
      subst hr
      simp [Except.map, SvgElem.childrenOf, hg, List.getD]

/-! ## Theorems for claim C1 -/

theorem radians_degrees (x : ℝ) : radians (degrees x) = x := by
  unfold radians degrees
  field_simp

theorem tan_atan2_one (s : ℝ) : Real.tan (atan2 s 1) = s := by
  unfold atan2
  rw [Complex.tan_arg]
  norm_num

theorem abs_cos_neg_sin (θ : ℝ) :
    Complex.abs ⟨Real.cos θ, -Real.sin θ⟩ = 1 := by
  have h1 : Real.cos θ * Real.cos θ + -Real.sin θ * -Real.sin θ = 1 := by
    have h := Real.sin_sq_add_cos_sq θ
    ring_nf
    ring_nf at h
    linarith
  rw [Complex.abs_apply, Complex.normSq_mk, h1, Real.sqrt_one]

theorem mk_cos_neg_sin_ne_zero (θ : ℝ) :
    (⟨Real.cos θ, -Real.sin θ⟩ : ℂ) ≠ 0 := by
  intro h
  have habs := abs_cos_neg_sin θ
  rw [h] at habs
  simp at habs

theorem cos_atan2_rot (θ : ℝ) :
    Real.cos (atan2 (-Real.sin θ) (Real.cos θ)) = Real.cos θ := by
  unfold atan2
  rw [Complex.cos_arg (mk_cos_neg_sin_ne_zero θ), abs_cos_neg_sin θ]
  simp

theorem sin_atan2_rot (θ : ℝ) :
    Real.sin (atan2 (-Real.sin θ) (Real.cos θ)) = -Real.sin θ := by
  unfold atan2
  rw [Complex.sin_arg, abs_cos_neg_sin θ]
  simp

/-- C1: whenever the `rotate` metadata entry is (as napari specifies) a
rotation matrix, applying the operators of the emitted transform string
right-to-left to an x/y point computes exactly the map
`point @ linearMatrix.T + offset` of `make_linear_matrix_and_offset` in
row/column coordinates, conjugated by the row/col to y/x flip. -/
theorem transform_string_matches_linear_matrix (m : TransformMeta) (θ : ℝ)
    (hrot : m.rotate.getD id2 =
      ((Real.cos θ, -Real.sin θ), (Real.sin θ, Real.cos θ)))
    (p : ℝ × ℝ) :
    svgApply (layer_transforms_to_xml_ops m) (swap2 p) =
      swap2 (affineApply (make_linear_matrix_and_offset m) p) := by
  simp only [layer_transforms_to_xml_ops, make_linear_matrix_and_offset,
    affineApply, swap2, mul2, mulVec2, hrot, List.reverse_cons,
    List.reverse_nil, List.nil_append, List.cons_append, List.append_nil,
    svgApply, applyTransformOp, radians_degrees, tan_atan2_one,
    cos_atan2_rot, sin_atan2_rot]
  refine Prod.ext ?_ ?_ <;> simp <;> ring

/-- Witness for C1: the refinement at the point (row, col) = (1, 2) for
identity metadata, pure scale [2, 3], pure translate [5, -5], and a
combined rotate(pi/3) + shear + scale + affine metadata. -/
theorem transform_string_matches_linear_matrix_witness :
    (svgApply (layer_transforms_to_xml_ops {}) (swap2 (1, 2)) =
      swap2 (affineApply (make_linear_matrix_and_offset {}) (1, 2))) ∧
    (svgApply (layer_transforms_to_xml_ops { scale := some (2, 3) })
        (swap2 (1, 2)) =
      swap2 (affineApply
        (make_linear_matrix_and_offset { scale := some (2, 3) }) (1, 2))) ∧
    (svgApply (layer_transforms_to_xml_ops { translate := some (5, -5) })
        (swap2 (1, 2)) =
      swap2 (affineApply
        (make_linear_matrix_and_offset { translate := some (5, -5) }) (1, 2))) ∧
    (svgApply (layer_transforms_to_xml_ops
        { scale := some (2, 3), translate := some (5, -5), shear := some 2,
          rotate := some ((Real.cos (Real.pi / 3), -Real.sin (Real.pi / 3)),
            (Real.sin (Real.pi / 3), Real.cos (Real.pi / 3))),
          affine := some ((1, 2, 3), (4, 5, 6), (0, 0, 1)) })
        (swap2 (1, 2)) =
      swap2 (affineApply (make_linear_matrix_and_offset
        { scale := some (2, 3), translate := some (5, -5), shear := some 2,
          rotate := some ((Real.cos (Real.pi / 3), -Real.sin (Real.pi / 3)),
            (Real.sin (Real.pi / 3), Real.cos (Real.pi / 3))),
          affine := some ((1, 2, 3), (4, 5, 6), (0, 0, 1)) }) (1, 2))) := by
  have hid : (({} : TransformMeta).rotate.getD id2) =
      ((Real.cos 0, -Real.sin 0), (Real.sin 0, Real.cos 0)) := by
    norm_num [id2]
  refine ⟨?_, ?_, ?_, ?_⟩
  · exact transform_string_matches_linear_matrix {} 0 hid (1, 2)
  · exact transform_string_matches_linear_matrix { scale := some (2, 3) } 0
      hid (1, 2)
  · exact transform_string_matches_linear_matrix
      { translate := some (5, -5) } 0 hid (1, 2)
  · exact transform_string_matches_linear_matrix
      { scale := some (2, 3), translate := some (5, -5), shear := some 2,
        rotate := some ((Real.cos (Real.pi / 3), -Real.sin (Real.pi / 3)),
          (Real.sin (Real.pi / 3), Real.cos (Real.pi / 3))),
        affine := some ((1, 2, 3), (4, 5, 6), (0, 0, 1)) }
      (Real.pi / 3) rfl (1, 2)

/-! ## Theorems for claim C4 -/

theorem rectangle_to_xml_zero_eq (p0 p1 p2 p3 : ℝ × ℝ) (props : ShapeProps)
    (hang : recoveredAngle (swap2 p0) (swap2 p1) = 0) :
    rectangle_to_xml [p0, p1, p2, p3] props =
      Except.ok (SvgElem.rect
        (min4 (swap2 p0).1 (swap2 p1).1 (swap2 p2).1 (swap2 p3).1)
        (min4 (swap2 p0).2 (swap2 p1).2 (swap2 p2).2 (swap2 p3).2)
        |(swap2 p2).1 - (swap2 p0).1| |(swap2 p2).2 - (swap2 p0).2|
        props) := by
  simp only [rectangle_to_xml, List.map_cons, List.map_nil, List.getD,
    List.length_cons, List.length_nil]
  norm_num [hang]

theorem rectangle_to_xml_rotated_eq (p0 p1 p2 p3 : ℝ × ℝ) (props : ShapeProps)
    (angle : ℝ) (cen : ℝ × ℝ)
    (hangle : angle = recoveredAngle (swap2 p0) (swap2 p1))
    (hcen : cen = centroid4 (swap2 p0) (swap2 p1) (swap2 p2) (swap2 p3))
    (hang : angle ≠ 0) :
    rectangle_to_xml [p0, p1, p2, p3] props =
      Except.ok (SvgElem.rect
        (min4 (rotAbout angle cen (swap2 p0)).1 (rotAbout angle cen (swap2 p1)).1
          (rotAbout angle cen (swap2 p2)).1 (rotAbout angle cen (swap2 p3)).1)
        (min4 (rotAbout angle cen (swap2 p0)).2 (rotAbout angle cen (swap2 p1)).2
          (rotAbout angle cen (swap2 p2)).2 (rotAbout angle cen (swap2 p3)).2)
        |(rotAbout angle cen (swap2 p2)).1 - (rotAbout angle cen (swap2 p0)).1|
        |(rotAbout angle cen (swap2 p2)).2 - (rotAbout angle cen (swap2 p0)).2|
        { props with transform := some (degrees (-angle), cen.1, cen.2) }) := by
  subst hangle
  subst hcen
  simp only [rectangle_to_xml, List.map_cons, List.map_nil, List.getD,
    List.length_cons, List.length_nil]
  norm_num [hang]

/-- C4: for every valid 4-vertex rectangle (consecutive vertices, second
edge perpendicular to the first, non-degenerate first edge), reading the
x/y/width/height attributes of the element emitted by `rectangle_to_xml` as
an axis-aligned box and applying the attached `rotate` transform (identity
when absent) reproduces the four input vertices (in x/y coordinates), up to
vertex ordering. -/
theorem rectangle_to_xml_roundtrip (p0 p1 p2 p3 : ℝ × ℝ) (props : ShapeProps)
    (hprops : props.transform = none)
    (hne : p1 ≠ p0)
    (hperp : (p1.1 - p0.1) * (p3.1 - p0.1) + (p1.2 - p0.2) * (p3.2 - p0.2) = 0)
    (hclose : p2 = (p1.1 + p3.1 - p0.1, p1.2 + p3.2 - p0.2)) :
    ∃ (x y w h : ℝ) (ps : ShapeProps),
      rectangle_to_xml [p0, p1, p2, p3] props =
        Except.ok (SvgElem.rect x y w h ps) ∧
      ∃ σ : Fin 4 → Fin 4, Function.Bijective σ ∧
        ∀ i : Fin 4,
          applyRotateAttr ps.transform
            (![(x, y), (x + w, y), (x + w, y + h), (x, y + h)] i) =
          ![swap2 p0, swap2 p1, swap2 p2, swap2 p3] (σ i) := by
  obtain ⟨r0, c0⟩ := p0
  obtain ⟨r1, c1⟩ := p1
  obtain ⟨r2, c2⟩ := p2
  obtain ⟨r3, c3⟩ := p3
  dsimp only at hperp hclose
  rw [Prod.mk.injEq] at hclose
  obtain ⟨hr2, hc2⟩ := hclose
  subst hr2
  subst hc2
  by_cases hang : recoveredAngle (swap2 (r0, c0)) (swap2 (r1, c1)) = 0
  · -- zero-angle branch: the vertices are used directly, no transform
    have hangS : Complex.arg ⟨-(r1 - r0), c1 - c0⟩ = 0 := by
      have h0 := hang
      unfold recoveredAngle atan2 swap2 at h0
      dsimp only at h0
      linarith [h0, neg_eq_zero.mp h0]
    obtain ⟨hre, him⟩ := Complex.arg_eq_zero_iff.mp hangS
    dsimp only at hre him
    have hc1 : c1 = c0 := by linarith
    subst hc1
    have hr1ne : r1 ≠ r0 := by
      intro h
      exact hne (by rw [h])
    have hr1lt : r1 < r0 := lt_of_le_of_ne (by linarith) hr1ne
    have hp2 : (r1 - r0) * (r3 - r0) = 0 := by linear_combination hperp
    have hr3 : r0 = r3 := by
      rcases mul_eq_zero.mp hp2 with h | h
      · exact absurd (by linarith : r1 = r0) hr1ne
      · linarith
    subst hr3
    rw [rectangle_to_xml_zero_eq _ _ _ _ _ hang]
    dsimp only [swap2]
    rw [show c1 + c3 - c1 = c3 from by ring, show r1 + r0 - r0 = r1 from by ring]
    have hy : min4 r0 r1 r1 r0 = r1 := by
      unfold min4
      rw [min_eq_right hr1lt.le, min_self, min_eq_left hr1lt.le]
    have habs2 : |r1 - r0| = r0 - r1 := by
      rw [abs_of_neg (show r1 - r0 < 0 by linarith)]
      ring
    rw [hy, habs2]
    by_cases hc3 : c1 ≤ c3
    · have hx : min4 c1 c1 c3 c3 = c1 := by
        unfold min4
        rw [min_self, min_eq_left hc3, min_eq_left hc3]
      have habs1 : |c3 - c1| = c3 - c1 := abs_of_nonneg (by linarith)
      rw [hx, habs1]
      refine ⟨c1, r1, c3 - c1, r0 - r1, props, rfl, ![1, 2, 3, 0], by decide, ?_⟩
      intro i
      fin_cases i <;> simp [applyRotateAttr, hprops, Prod.mk.injEq]
    · have hlt : c3 < c1 := not_le.mp hc3
      have hx : min4 c1 c1 c3 c3 = c3 := by
        unfold min4
        rw [min_self, min_eq_right hlt.le, min_self]
      have habs1 : |c3 - c1| = c1 - c3 := by
        rw [abs_of_neg (show c3 - c1 < 0 by linarith)]
        ring
      rw [hx, habs1]
      refine ⟨c3, r1, c1 - c3, r0 - r1, props, rfl, ![2, 1, 0, 3], by decide, ?_⟩
      intro i
      fin_cases i <;> simp [applyRotateAttr, hprops, Prod.mk.injEq]
  · -- rotated branch: the de-rotated vertices form an axis-aligned box and
    -- the attached rotate(...) attribute is the exact inverse of rotAbout
    set A := recoveredAngle (swap2 (r0, c0)) (swap2 (r1, c1)) with hA
    set C := centroid4 (swap2 (r0, c0)) (swap2 (r1, c1))
      (swap2 (r1 + r3 - r0, c1 + c3 - c0)) (swap2 (r3, c3)) with hC
    set z : ℂ := ⟨-(r1 - r0), c1 - c0⟩ with hz_def
    have hz : z ≠ 0 := by
      intro h0
      have h1 := Complex.ext_iff.mp h0
      simp only [Complex.zero_re, Complex.zero_im] at h1
      exact hne (by
        rw [Prod.mk.injEq]
        exact ⟨by linarith [h1.1], by linarith [h1.2]⟩)
    set ρ := Complex.abs z with hρ_def
    have hρ : 0 < ρ := Complex.abs.pos hz
    have hρne : ρ ≠ 0 := ne_of_gt hρ
    have hQ : (c1 - c0) ^ 2 + (r1 - r0) ^ 2 = ρ ^ 2 := by
      rw [hρ_def, Complex.sq_abs, hz_def, Complex.normSq_mk]
      ring
    have hcosρ : ρ * Real.cos A = -(r1 - r0) := by
      rw [hA]
      unfold recoveredAngle atan2 swap2
      dsimp only
      rw [Real.cos_neg, ← hz_def, Complex.cos_arg hz, ← hρ_def]
      field_simp
    have hsinρ : ρ * Real.sin (-A) = c1 - c0 := by
      rw [hA]
      unfold recoveredAngle atan2 swap2
      dsimp only
      rw [neg_neg, ← hz_def, Complex.sin_arg, ← hρ_def]
      field_simp
    have hpy : Real.sin (-A) ^ 2 + Real.cos A ^ 2 = 1 := by
      rw [Real.sin_neg]
      linear_combination Real.sin_sq_add_cos_sq A
    have hTinv : ∀ v : ℝ × ℝ,
        applyRotateAttr (some (degrees (-A), C.1, C.2)) (rotAbout A C v) = v := by
      intro v
      simp only [applyRotateAttr, rotAbout, deRotate, radians_degrees,
        Real.cos_neg]
      refine Prod.ext ?_ ?_ <;> dsimp only
      · linear_combination (v.1 - C.1) * hpy
      · linear_combination (v.2 - C.2) * hpy
    rw [rectangle_to_xml_rotated_eq (r0, c0) (r1, c1)
      (r1 + r3 - r0, c1 + c3 - c0) (r3, c3) props A C hA hC hang]
    set e0 := rotAbout A C (swap2 (r0, c0)) with he0
    set e1 := rotAbout A C (swap2 (r1, c1)) with he1
    set e2 := rotAbout A C (swap2 (r1 + r3 - r0, c1 + c3 - c0)) with he2
    set e3 := rotAbout A C (swap2 (r3, c3)) with he3
    have hF1 : e0.1 = e1.1 := by
      rw [he0, he1]
      unfold rotAbout deRotate swap2
      dsimp only
      apply mul_left_cancel₀ hρne
      linear_combination (c0 - c1) * hcosρ + (r0 - r1) * hsinρ
    have hF2 : e2.1 = e3.1 := by
      rw [he2, he3]
      unfold rotAbout deRotate swap2
      dsimp only
      apply mul_left_cancel₀ hρne
      linear_combination (c1 - c0) * hcosρ + (r1 - r0) * hsinρ
    have hF3 : e1.2 = e2.2 := by
      rw [he1, he2]
      unfold rotAbout deRotate swap2
      dsimp only
      apply mul_left_cancel₀ hρne
      linear_combination (r0 - r3) * hcosρ - (c0 - c3) * hsinρ + hperp
    have hF4 : e0.2 = e3.2 := by
      rw [he0, he3]
      unfold rotAbout deRotate swap2
      dsimp only
      apply mul_left_cancel₀ hρne
      linear_combination (r0 - r3) * hcosρ - (c0 - c3) * hsinρ + hperp
    have hF5 : e0.2 = e1.2 + ρ := by
      rw [he0, he1]
      unfold rotAbout deRotate swap2
      dsimp only
      apply mul_left_cancel₀ hρne
      linear_combination (r0 - r1) * hcosρ - (c0 - c1) * hsinρ + hQ
    have hminy : min4 e0.2 e1.2 e2.2 e3.2 = e1.2 := by
      rw [← hF4, hF5, ← hF3]
      unfold min4
      rw [show min (e1.2 + ρ) e1.2 = e1.2 from min_eq_right (by linarith),
        min_self, show min e1.2 (e1.2 + ρ) = e1.2 from min_eq_left (by linarith)]
    have habsh : |e2.2 - e0.2| = ρ := by
      rw [← hF3, hF5, show e1.2 - (e1.2 + ρ) = -ρ from by ring, abs_neg,
        abs_of_pos hρ]
    by_cases hle : e0.1 ≤ e2.1
    · have hminx : min4 e0.1 e1.1 e2.1 e3.1 = e0.1 := by
        have hm : min e0.1 e2.1 = e0.1 := min_eq_left hle
        rw [← hF1, ← hF2]
        unfold min4
        rw [min_self, hm, hm]
      have habsw : |e2.1 - e0.1| = e2.1 - e0.1 := abs_of_nonneg (by linarith)
      refine ⟨e0.1, e1.2, e2.1 - e0.1, ρ,
        { props with transform := some (degrees (-A), C.1, C.2) }, ?_,
        ![1, 2, 3, 0], by decide, ?_⟩
      · simp only [Except.ok.injEq, SvgElem.rect.injEq]
        exact ⟨hminx, hminy, habsw, habsh, trivial⟩
      · intro i
        fin_cases i <;> dsimp only
        · rw [show ((e0.1 : ℝ), e1.2) = e1 from by rw [hF1, Prod.mk.eta]]
          exact hTinv (swap2 (r1, c1))
        · rw [show ((e0.1 + (e2.1 - e0.1) : ℝ), e1.2) = e2 from by
            rw [hF3, show e0.1 + (e2.1 - e0.1) = e2.1 from by ring,
              Prod.mk.eta]]
          exact hTinv (swap2 (r1 + r3 - r0, c1 + c3 - c0))
        · rw [show ((e0.1 + (e2.1 - e0.1) : ℝ), e1.2 + ρ) = e3 from by
            rw [show e0.1 + (e2.1 - e0.1) = e2.1 from by ring, hF2,
              ← hF5, hF4, Prod.mk.eta]]
          exact hTinv (swap2 (r3, c3))
        · rw [show ((e0.1 : ℝ), e1.2 + ρ) = e0 from by
            rw [← hF5, Prod.mk.eta]]
          exact hTinv (swap2 (r0, c0))
    · have hlt : e2.1 < e0.1 := not_le.mp hle
      have hminx : min4 e0.1 e1.1 e2.1 e3.1 = e2.1 := by
        have hm : min e0.1 e2.1 = e2.1 := min_eq_right hlt.le
        rw [← hF1, ← hF2]
        unfold min4
        rw [min_self, hm, min_self]
      have habsw : |e2.1 - e0.1| = e0.1 - e2.1 := by
        rw [abs_of_neg (by linarith : e2.1 - e0.1 < 0)]
        ring
      refine ⟨e2.1, e1.2, e0.1 - e2.1, ρ,
        { props with transform := some (degrees (-A), C.1, C.2) }, ?_,
        ![2, 1, 0, 3], by decide, ?_⟩
      · simp only [Except.ok.injEq, SvgElem.rect.injEq]
        exact ⟨hminx, hminy, habsw, habsh, trivial⟩
      · intro i
        fin_cases i <;> dsimp only
        · rw [show ((e2.1 : ℝ), e1.2) = e2 from by rw [hF3, Prod.mk.eta]]
          exact hTinv (swap2 (r1 + r3 - r0, c1 + c3 - c0))
        · rw [show ((e2.1 + (e0.1 - e2.1) : ℝ), e1.2) = e1 from by
            rw [show e2.1 + (e0.1 - e2.1) = e0.1 from by ring, hF1,
              Prod.mk.eta]]
          exact hTinv (swap2 (r1, c1))
        · rw [show ((e2.1 + (e0.1 - e2.1) : ℝ), e1.2 + ρ) = e0 from by
            rw [show e2.1 + (e0.1 - e2.1) = e0.1 from by ring, ← hF5,
              Prod.mk.eta]]
          exact hTinv (swap2 (r0, c0))
        · rw [show ((e2.1 : ℝ), e1.2 + ρ) = e3 from by
            rw [hF2, ← hF5, hF4, Prod.mk.eta]]
          exact hTinv (swap2 (r3, c3))

/-- Witness for C4 at the concrete rotated rectangle with row/column
vertices (0,0), (1,1), (0,2), (-1,1). -/
theorem rectangle_to_xml_roundtrip_witness :
    (({} : ShapeProps).transform = none) ∧
    (((1 : ℝ), (1 : ℝ)) ≠ ((0 : ℝ), (0 : ℝ))) ∧
    (((1 : ℝ) - 0) * (-1 - 0) + ((1 : ℝ) - 0) * (1 - 0) = 0) ∧
    ∃ (x y w h : ℝ) (ps : ShapeProps),
      rectangle_to_xml [((0 : ℝ), (0 : ℝ)), (1, 1), (0, 2), (-1, 1)] {} =
        Except.ok (SvgElem.rect x y w h ps) ∧
      ∃ σ : Fin 4 → Fin 4, Function.Bijective σ ∧
        ∀ i : Fin 4,
          applyRotateAttr ps.transform
            (![(x, y), (x + w, y), (x + w, y + h), (x, y + h)] i) =
          ![swap2 (0, 0), swap2 (1, 1), swap2 (0, 2), swap2 (-1, 1)] (σ i) := by
  refine ⟨rfl, by norm_num [Prod.mk.injEq], by norm_num, ?_⟩
  exact rectangle_to_xml_roundtrip (0, 0) (1, 1) (0, 2) (-1, 1) {} rfl
    (by norm_num [Prod.mk.injEq]) (by norm_num) (by norm_num [Prod.mk.injEq])

end NapariSvg
